import Mathlib

/-!
Verification development for the todo-mcp repository: a shallow embedding of
the tool registry / invocation engine (`src/utils/extended-mcp-server.ts`),
the database helpers (`src/db/postgres.ts`, `src/db/schema.ts`), the
relative-time formatter (`src/utils/date.ts`) and the six todo tool handlers
of the monolithic `index.ts` embedded in `src/src/__tests__/index.test.ts`
after its document separator (its inline relative-time formatter included).

Timestamps are modelled as natural numbers of milliseconds.  JavaScript
parameter objects (`Record<string, unknown>`) are modelled as association
lists from strings to a small value type.
-/

namespace TodoMcp

/-- A JavaScript-ish value as used in tool parameters and results. -/
inductive Value where
  | vStr (s : String)
  | vNum (n : Nat)
  | vBool (b : Bool)
deriving DecidableEq, Repr

/-- A parameter record `Record<string, unknown>`. -/
abbrev Params := List (String × Value)

/-- Look up a key in a parameter record (first binding wins). -/
def Params.get? : Params → String → Option Value
  | [], _ => none
  | (k', v) :: rest, k => if k' = k then some v else Params.get? rest k

/-- The `priority` enum of `src/db/schema.ts` (`pgEnum "priority"`). -/
inductive Priority where
  | low
  | medium
  | high
  | urgent
deriving DecidableEq, Repr

/-- Embeds `priorityOrder` from `src/db/schema.ts`: urgent=0, high=1, medium=2, low=3. -/
def priorityOrder : Priority → Nat
  | .urgent => 0
  | .high => 1
  | .medium => 2
  | .low => 3

/-- Parse a priority string, as the zod enum of `schema.ts` accepts it. -/
def Priority.ofString? : String → Option Priority
  | "low" => some .low
  | "medium" => some .medium
  | "high" => some .high
  | "urgent" => some .urgent
  | _ => none

/-- A row of the `lists` table (`src/db/schema.ts`, `listsTable`). -/
structure ListRec where
  id : Nat
  name : String
  description : Option String
  createdAt : Nat
  archivedAt : Option Nat
deriving DecidableEq, Repr

/-- A row of the `tasks` table (`src/db/schema.ts`, `tasksTable`). -/
structure Task where
  id : Nat
  name : String
  description : Option String
  createdAt : Nat
  completedAt : Option Nat
  archivedAt : Option Nat
  priority : Priority
  listId : Nat
deriving DecidableEq, Repr

/-- The persistent store: the two tables, the identity sequences that assign
ids, and the current wall-clock time (`new Date()`), frozen for a run. -/
structure Store where
  lists : List ListRec
  tasks : List Task
  nextListId : Nat
  nextTaskId : Nat
  clock : Nat
deriving DecidableEq, Repr

/-! ### Database operations (`src/db/postgres.ts`, class `TodoDatabase`) -/

/-- Embeds `getAllLists`: `select from lists where isNull(archivedAt)` —
note the query filters out archived lists (postgres.ts line 47). -/
def getAllLists (s : Store) : List ListRec :=
  s.lists.filter fun l => l.archivedAt = none

/-- Embeds `getList(id)`. -/
def getList (s : Store) (id : Nat) : Option ListRec :=
  s.lists.find? fun l => l.id = id

/-- Embeds `getTask(id)`. -/
def getTask (s : Store) (id : Nat) : Option Task :=
  s.tasks.find? fun t => t.id = id

/-- Embeds `getTasksByList(listId)`. -/
def getTasksByList (s : Store) (listId : Nat) : List Task :=
  s.tasks.filter fun t => t.listId = listId

/-- Embeds `createList(data)`: insert with store-assigned id and `createdAt = now()`. -/
def dbCreateList (s : Store) (name : String) (description : Option String) :
    ListRec × Store :=
  let l : ListRec :=
    { id := s.nextListId, name := name, description := description
      createdAt := s.clock, archivedAt := none }
  (l, { s with lists := s.lists ++ [l], nextListId := s.nextListId + 1 })

/-- Embeds `createTask(data)`: insert with store-assigned id, `createdAt = now()`, and
the table-level priority default `'medium'` when none is supplied. -/
def dbCreateTask (s : Store) (name : String) (description : Option String)
    (priority : Option Priority) (listId : Nat) : Task × Store :=
  let t : Task :=
    { id := s.nextTaskId, name := name, description := description
      createdAt := s.clock, completedAt := none, archivedAt := none
      priority := priority.getD .medium, listId := listId }
  (t, { s with tasks := s.tasks ++ [t], nextTaskId := s.nextTaskId + 1 })

/-- Embeds `completeTask(id)` at the database layer: `update tasks set completedAt =
new Date() where id = id` (unconditional; the idempotence guard lives in the
handler). -/
def dbCompleteTask (s : Store) (id : Nat) (now : Nat) : Store :=
  { s with tasks := s.tasks.map fun t =>
      if t.id = id then { t with completedAt := some now } else t }

/-- Embeds `archiveTask(id)` at the database layer. -/
def dbArchiveTask (s : Store) (id : Nat) (now : Nat) : Store :=
  { s with tasks := s.tasks.map fun t =>
      if t.id = id then { t with archivedAt := some now } else t }

/-- The result of `getTaskCountsByList`. -/
structure TaskCounts where
  total : Nat
  active : Nat
  completed : Nat
  archived : Nat
deriving DecidableEq, Repr

/-- Embeds `getTaskCountsByList(listId)` from `src/db/postgres.ts` lines 118-133:
`active` are tasks with neither timestamp set, `completed` are tasks completed
but not archived, `archived` are all tasks with the archive timestamp set. -/
def getTaskCountsByList (s : Store) (listId : Nat) : TaskCounts :=
  let tasks := getTasksByList s listId
  { total := tasks.length
    active := (tasks.filter fun t => !t.completedAt.isSome && !t.archivedAt.isSome).length
    completed := (tasks.filter fun t => t.completedAt.isSome && !t.archivedAt.isSome).length
    archived := (tasks.filter fun t => t.archivedAt.isSome).length }

/-! ### Relative-time formatting (`src/utils/date.ts`) -/

/-- Embeds `formatRelativeTime` from `src/utils/date.ts`, with times in milliseconds.
JavaScript's negative `diffMs` for future instants collapses to `0` under
truncated natural subtraction, which the `< 1000` guard maps to "just now"
exactly as the source does. -/
def formatRelativeTime (nowMs pastMs : Nat) : String :=
  let diffMs := nowMs - pastMs
  if diffMs < 1000 then "just now"
  else
    let diffSeconds := diffMs / 1000
    let diffMinutes := diffSeconds / 60
    let diffHours := diffMinutes / 60
    let diffDays := diffHours / 24
    let diffMonths := diffDays / 30
    let diffYears := diffDays / 365
    if diffYears > 0 then
      toString diffYears ++ " year" ++ (if diffYears > 1 then "s" else "") ++ " ago"
    else if diffMonths > 0 then
      toString diffMonths ++ " month" ++ (if diffMonths > 1 then "s" else "") ++ " ago"
    else if diffDays > 0 then
      toString diffDays ++ " day" ++ (if diffDays > 1 then "s" else "") ++ " ago"
    else if diffHours > 0 then
      toString diffHours ++ " hour" ++ (if diffHours > 1 then "s" else "") ++ " ago"
    else if diffMinutes > 0 then
      toString diffMinutes ++ " minute" ++ (if diffMinutes > 1 then "s" else "") ++ " ago"
    else
      toString diffSeconds ++ " second" ++ (if diffSeconds > 1 then "s" else "") ++ " ago"

/-! ### Tool registry and invocation engine (`src/utils/extended-mcp-server.ts`) -/

/-- The `extra` context handed to every tool callback (`callTool` lines
159-165): a request identifier and a cancellation signal. -/
structure Extra where
  requestId : String
  signal : Unit
deriving Repr

/-- A registered tool: name, description, optional input schema (modelled as a
validator returning the parsed value or a diagnostic, as zod's `parse` does)
and the callback.  Callbacks return a result-or-error together with the store
they leave behind (a thrown handler may already have mutated the store). -/
structure Tool where
  name : String
  description : String
  inputSchema : Option (Params → Except String Params)
  callback : Params → Extra → Store → Except String String × Store

/-- A server's registered tools, in registration order (the `_registeredTools`
map exposed by `getRegisteredTools`). -/
abbrev Server := List Tool

/-- Embeds `getTool(name)`: look the tool up in the registry. -/
def getTool (srv : Server) (name : String) : Option Tool :=
  srv.find? fun t => t.name = name

/-- Embeds `getToolNames()`: the registered names in registration order. -/
def getToolNames (srv : Server) : List String :=
  srv.map fun t => t.name

/-- JavaScript `Array.prototype.join(", ")` as used for the available-tools
and available-lists listings. -/
def joinComma : List String → String
  | [] => ""
  | [x] => x
  | x :: y :: xs => x ++ ", " ++ joinComma (y :: xs)

/-- The `ToolNotFound`-style message of `callTool` (lines 141-145). -/
def toolNotFoundMsg (toolName : String) (names : List String) : String :=
  "Tool \"" ++ toolName ++ "\" not found. Available tools: " ++ joinComma names

/-- The `InvalidParameters`-style message of `callTool` (lines 152-156). -/
def invalidParamsMsg (toolName diag : String) : String :=
  "Invalid parameters for tool \"" ++ toolName ++ "\": " ++ diag

/-- The `ToolExecutionFailed`-style message of `callTool` (lines 172-176). -/
def execFailedMsg (toolName err : String) : String :=
  "Tool \"" ++ toolName ++ "\" execution failed: " ++ err

/-- The mock `extra` built by `callTool` lines 159-165; the request id is
derived from the current time (the random suffix is not modelled). -/
def mkExtra (s : Store) : Extra :=
  { requestId := "test-" ++ toString s.clock, signal := () }

/-- The handler-invocation tail of `callTool` (lines 159-176): call the
callback with the RAW parameters and the mock `extra`; rethrow a callback
failure wrapped in the execution-failed message. -/
def runCallback (tool : Tool) (toolName : String) (params : Params) (s : Store) :
    Except String String × Store :=
  match tool.callback params (mkExtra s) s with
  | (.ok r, s') => (.ok r, s')
  | (.error e, s') => (.error (execFailedMsg toolName e), s')

/-- Embeds `callTool(toolName, parameters)` from `src/utils/extended-mcp-server.ts`
lines 135-177: look up the tool (else `ToolNotFound` listing all names),
validate the parameters when an input schema exists (else `InvalidParameters`)
— note the parse RESULT is discarded — then invoke the callback with the raw
parameters and a per-call context, wrapping a callback failure. -/
def callTool (srv : Server) (toolName : String) (params : Params) (s : Store) :
    Except String String × Store :=
  match getTool srv toolName with
  | none => (.error (toolNotFoundMsg toolName (getToolNames srv)), s)
  | some tool =>
    match tool.inputSchema with
    | some validate =>
      match validate params with
      | .error e => (.error (invalidParamsMsg toolName e), s)
      | .ok _ => runCallback tool toolName params s
    | none => runCallback tool toolName params s

/-- One entry of a `callTools` batch request. -/
structure BatchCall where
  tool : String
  parameters : Params
deriving DecidableEq, Repr

/-- One entry of a `callTools` batch response: tool name, result (`null` on
failure), success flag, and the stringified error message on failure. -/
structure BatchResult where
  tool : String
  result : Option String
  success : Bool
  error : Option String
deriving DecidableEq, Repr

/-- Embeds `callTools(calls)` from `src/utils/extended-mcp-server.ts` lines 103-130:
invoke `callTool` for each entry sequentially, in array order, catching any
failure per entry and continuing with the remaining entries. -/
def callTools (srv : Server) : List BatchCall → Store → List BatchResult × Store
  | [], s => ([], s)
  | c :: rest, s =>
    match callTool srv c.tool c.parameters s with
    | (.ok r, s') =>
      let (rs, s'') := callTools srv rest s'
      ({ tool := c.tool, result := some r, success := true, error := none } :: rs, s'')
    | (.error e, s') =>
      let (rs, s'') := callTools srv rest s'
      ({ tool := c.tool, result := none, success := false, error := some e } :: rs, s'')

/-! ### Todo service tools

The six tool registrations live in the monolithic `index.ts` embedded in
`src/src/__tests__/index.test.ts` after its document separator: the inline
relative-time formatter (lines 95-112) and the tools getLists (125-154),
createList (156-185), getTasks (187-251), createTask (253-316), completeTask
(318-349) and archiveTask (351-382).  The definitions below embed that code.
Handlers receive the raw parameters the engine passes (see C4), so parameter
destructuring is embedded as lookups into the raw record; success texts that
serialize whole JSON payloads are abbreviated to deterministic summary
strings, noted per definition. -/

/-- Extract a string parameter (empty string when absent or mistyped). -/
def strParam (p : Params) (k : String) : String :=
  match p.get? k with
  | some (.vStr s) => s
  | _ => ""

/-- Extract an optional string parameter. -/
def strParamOpt (p : Params) (k : String) : Option String :=
  match p.get? k with
  | some (.vStr s) => some s
  | _ => none

/-- Extract a boolean parameter with a default (an absent `includeCompleted`
is falsy in the source). -/
def boolParam (p : Params) (k : String) (d : Bool) : Bool :=
  match p.get? k with
  | some (.vBool b) => b
  | _ => d

/-- Extract a numeric parameter (0 when absent or mistyped). -/
def natParam (p : Params) (k : String) : Nat :=
  match p.get? k with
  | some (.vNum n) => n
  | _ => 0

/-- Embeds the inline `formatRelativeTime` of the embedded `index.ts` (lines
95-112) used by the getLists and getTasks handlers: sub-minute deltas are
"just now", and the units are minutes, hours, days, weeks, months (30-day
approximation), years.  Future instants collapse to "just now" exactly as
the negative JavaScript delta does. -/
def formatRelativeTimeInline (nowMs pastMs : Nat) : String :=
  let diffMs := nowMs - pastMs
  let diffMinutes := diffMs / (1000 * 60)
  let diffHours := diffMs / (1000 * 60 * 60)
  let diffDays := diffMs / (1000 * 60 * 60 * 24)
  let diffWeeks := diffDays / 7
  let diffMonths := diffDays / 30
  let diffYears := diffDays / 365
  if diffMinutes < 1 then "just now"
  else if diffMinutes < 60 then
    toString diffMinutes ++ " minute" ++ (if diffMinutes > 1 then "s" else "") ++ " ago"
  else if diffHours < 24 then
    toString diffHours ++ " hour" ++ (if diffHours > 1 then "s" else "") ++ " ago"
  else if diffDays < 7 then
    toString diffDays ++ " day" ++ (if diffDays > 1 then "s" else "") ++ " ago"
  else if diffWeeks < 4 then
    toString diffWeeks ++ " week" ++ (if diffWeeks > 1 then "s" else "") ++ " ago"
  else if diffMonths < 12 then
    toString diffMonths ++ " month" ++ (if diffMonths > 1 then "s" else "") ++ " ago"
  else
    toString diffYears ++ " year" ++ (if diffYears > 1 then "s" else "") ++ " ago"

/-- JavaScript `toLowerCase`, modelled as lower-casing every character of
the string (basic-latin case folding). -/
def strToLower (s : String) : String := ⟨s.data.map Char.toLower⟩

/-- Embeds the list resolution shared by getTasks and createTask
(index.test.ts lines 208-209 and 285-286): fetch the non-archived lists and
take the first whose lower-cased name equals the lower-cased query. -/
def resolveList (s : Store) (q : String) : Option ListRec :=
  (getAllLists s).find? fun l => strToLower l.name = strToLower q

/-- The names enumerated in a ListNotFound message: the names of the lists
returned by `getAllLists` (lines 213 and 290 map over that same array). -/
def availableListNames (s : Store) : List String :=
  (getAllLists s).map fun l => l.name

/-- Embeds the ListNotFound message of lines 212-214 and 289-291. -/
def listNotFoundMsg (q : String) (names : List String) : String :=
  "List \"" ++ q ++ "\" not found. Available lists: " ++ joinComma names

/-- Embeds the TaskNotFound message of lines 332 and 365. -/
def taskNotFoundMsg (id : Nat) : String :=
  "Task with ID " ++ toString id ++ " not found"

/-- Embeds the AlreadyCompleted message of line 336 — it quotes the task
NAME, not the id. -/
def alreadyCompletedMsg (name : String) : String :=
  "Task \"" ++ name ++ "\" is already completed"

/-- Embeds the AlreadyArchived message of line 369 — it quotes the task
NAME, not the id. -/
def alreadyArchivedMsg (name : String) : String :=
  "Task \"" ++ name ++ "\" is already archived"

/-- The getTasks sort order of the comparator at index.test.ts lines 222-230:
priority rank ascending, creation time ascending as the tie-break. -/
def taskLE (a b : Task) : Prop :=
  priorityOrder a.priority < priorityOrder b.priority ∨
    (priorityOrder a.priority = priorityOrder b.priority ∧ a.createdAt ≤ b.createdAt)

instance : DecidableRel taskLE := fun a b => by
  unfold taskLE; infer_instance

instance : IsTotal Task taskLE := by
  constructor; intro a b; unfold taskLE; omega

instance : IsTrans Task taskLE := by
  constructor; intro a b c hab hbc; unfold taskLE at *; omega

/-- Embeds `tasks.sort(comparator)` of index.test.ts lines 222-230 as a
stable sort under `taskLE` (ECMAScript `Array.prototype.sort` is stable). -/
def sortTasks (ts : List Task) : List Task :=
  ts.insertionSort taskLE

/-- Embeds the resolution/filter/sort core of the getTasks handler
(index.test.ts lines 206-230): resolve the list case-insensitively (else the
ListNotFound error enumerating the available names), keep all tasks when
`includeCompleted` and only never-completed never-archived ones otherwise,
then sort. -/
def getTasksCore (s : Store) (q : String) (includeCompleted : Bool) :
    Except String (List Task) :=
  match resolveList s q with
  | none => .error (listNotFoundMsg q (availableListNames s))
  | some l =>
    let ts := getTasksByList s l.id
    let ts := if includeCompleted then ts
      else ts.filter fun t => !t.completedAt.isSome && !t.archivedAt.isSome
    .ok (sortTasks ts)

/-- A list as returned by getLists: the row spread together with the
task-count breakdown and a relative-time rendering of its creation
timestamp (index.test.ts lines 134-141). -/
structure ListWithMeta where
  list : ListRec
  taskCounts : TaskCounts
  createdAtRelative : String
deriving DecidableEq, Repr

/-- Embeds the body of the getLists handler (index.test.ts lines 129-142):
the store's non-archived list query with each list augmented by
`getTaskCountsByList` and the INLINE formatter applied to its creation
timestamp. -/
def getListsCore (s : Store) : List ListWithMeta :=
  (getAllLists s).map fun l =>
    { list := l
      taskCounts := getTaskCountsByList s l.id
      createdAtRelative := formatRelativeTimeInline s.clock l.createdAt }

/-- Embeds the getLists handler (index.test.ts lines 125-154); the
`JSON.stringify` of the augmented array is abbreviated to a count summary. -/
def getListsHandler (_p : Params) (_e : Extra) (s : Store) :
    Except String String × Store :=
  (.ok ("lists: " ++ toString (getListsCore s).length), s)

/-- Embeds the createList handler (index.test.ts lines 174-184): persists and
returns the success text with the stored name and assigned id. -/
def createListHandler (p : Params) (_e : Extra) (s : Store) :
    Except String String × Store :=
  let nm := strParam p "name"
  let (l, s') := dbCreateList s nm (strParamOpt p "description")
  (.ok ("✅ Created list: " ++ nm ++ " (ID: " ++ toString l.id ++ ")"), s')

/-- Embeds the getTasks handler (index.test.ts lines 206-251) over
`getTasksCore`; the `JSON.stringify` of the name/tasks payload is abbreviated
to a summary with the queried name and task count. -/
def getTasksHandler (p : Params) (_e : Extra) (s : Store) :
    Except String String × Store :=
  match getTasksCore s (strParam p "list") (boolParam p "includeCompleted" false) with
  | .error e => (.error e, s)
  | .ok ts => (.ok ("list: " ++ strParam p "list" ++ ", tasks: " ++ toString ts.length), s)

/-- Embeds the `priorityEmoji[priority]` lookup of index.test.ts lines
301-306 interpolated into a template literal: an absent or unknown priority
renders as JavaScript renders an undefined lookup. -/
def priorityEmojiStr : Option String → String
  | some "urgent" => "🔥"
  | some "high" => "🔴"
  | some "medium" => "🟡"
  | some "low" => "🟢"
  | _ => "undefined"

/-- Embeds the createTask handler (index.test.ts lines 283-315): resolves the
owning list exactly as getTasks does (failing with the same message shape),
persists — an absent priority reaches the insert undefined and falls back to
the table default medium — and returns the success text with name, priority
emoji, assigned id and the resolved list name. -/
def createTaskHandler (p : Params) (_e : Extra) (s : Store) :
    Except String String × Store :=
  let q := strParam p "list"
  match resolveList s q with
  | none => (.error (listNotFoundMsg q (availableListNames s)), s)
  | some l =>
    let nm := strParam p "name"
    let pr := (strParamOpt p "priority").bind Priority.ofString?
    let (t, s') := dbCreateTask s nm (strParamOpt p "description") pr l.id
    (.ok ("✅ Created task: " ++ nm ++ " " ++ priorityEmojiStr (strParamOpt p "priority")
        ++ " (ID: " ++ toString t.id ++ ") in list \"" ++ l.name ++ "\""), s')

/-- Embeds the completeTask handler (index.test.ts lines 329-348): resolve by
id (else TaskNotFound with the id), reject an already-completed task quoting
its NAME, otherwise set the completion timestamp to now. -/
def completeTaskHandler (p : Params) (_e : Extra) (s : Store) :
    Except String String × Store :=
  let id := natParam p "taskId"
  match getTask s id with
  | none => (.error (taskNotFoundMsg id), s)
  | some t =>
    if t.completedAt.isSome then (.error (alreadyCompletedMsg t.name), s)
    else
      (.ok ("✅ Completed task: " ++ t.name ++ " (ID: " ++ toString id ++ ")"),
        dbCompleteTask s id s.clock)

/-- Embeds the archiveTask handler (index.test.ts lines 362-381), symmetric
to `completeTaskHandler` on the archive timestamp. -/
def archiveTaskHandler (p : Params) (_e : Extra) (s : Store) :
    Except String String × Store :=
  let id := natParam p "taskId"
  match getTask s id with
  | none => (.error (taskNotFoundMsg id), s)
  | some t =>
    if t.archivedAt.isSome then (.error (alreadyArchivedMsg t.name), s)
    else
      (.ok ("🗄️ Archived task: " ++ t.name ++ " (ID: " ++ toString id ++ ")"),
        dbArchiveTask s id s.clock)

/-- Embeds the empty parameter shape of the getLists registration
(index.test.ts line 128): a zod object with no fields strips every key and
never fails. -/
def vEmptyObject (_p : Params) : Except String Params := .ok []

/-- Embeds the createList input schema (index.test.ts lines 160-173):
required name of 1-255 characters with the custom zod messages, optional
description of at most 500 characters. -/
def vCreateList (p : Params) : Except String Params :=
  match p.get? "name" with
  | some (.vStr nm) =>
    if nm.length < 1 then .error "List name is required"
    else if 255 < nm.length then .error "List name too long"
    else
      match p.get? "description" with
      | none => .ok [("name", .vStr nm)]
      | some (.vStr d) =>
        if 500 < d.length then .error "Description too long"
        else .ok [("name", .vStr nm), ("description", .vStr d)]
      | some _ => .error "Expected string at description"
  | _ => .error "Required"

/-- Embeds the getTasks input schema (index.test.ts lines 191-204): required
non-empty list name, optional `includeCompleted` flag defaulting to false. -/
def vGetTasks (p : Params) : Except String Params :=
  match p.get? "list" with
  | some (.vStr q) =>
    if q.length < 1 then .error "List name is required"
    else
      match p.get? "includeCompleted" with
      | none => .ok [("list", .vStr q), ("includeCompleted", .vBool false)]
      | some (.vBool b) => .ok [("list", .vStr q), ("includeCompleted", .vBool b)]
      | some _ => .error "Expected boolean at includeCompleted"
  | _ => .error "Required"

/-- Embeds the createTask input schema (index.test.ts lines 257-281):
required non-empty list name, name of 5-120 characters, optional description
of at most 500 characters — each carrying its custom zod message — and a
priority from the four-value enum defaulting to medium. -/
def vCreateTask (p : Params) : Except String Params :=
  match p.get? "list" with
  | some (.vStr q) =>
    if q.length < 1 then .error "List name is required"
    else
      match p.get? "name" with
      | some (.vStr nm) =>
        if nm.length < 5 then
          .error "Task name too short - be specific about what needs to be done"
        else if 120 < nm.length then
          .error "Task name too long - consider breaking this into smaller, actionable tasks"
        else
          match p.get? "description" with
          | some (.vStr d) =>
            if 500 < d.length then
              .error ("Description too long - focus on the core requirement. " ++
                "Large tasks should be split into multiple smaller ones")
            else
              match p.get? "priority" with
              | none =>
                .ok [("list", .vStr q), ("name", .vStr nm), ("description", .vStr d),
                  ("priority", .vStr "medium")]
              | some (.vStr ps) =>
                match Priority.ofString? ps with
                | some _ =>
                  .ok [("list", .vStr q), ("name", .vStr nm), ("description", .vStr d),
                    ("priority", .vStr ps)]
                | none => .error "Invalid enum value"
              | some _ => .error "Expected string at priority"
          | some _ => .error "Expected string at description"
          | none =>
            match p.get? "priority" with
            | none => .ok [("list", .vStr q), ("name", .vStr nm), ("priority", .vStr "medium")]
            | some (.vStr ps) =>
              match Priority.ofString? ps with
              | some _ => .ok [("list", .vStr q), ("name", .vStr nm), ("priority", .vStr ps)]
              | none => .error "Invalid enum value"
            | some _ => .error "Expected string at priority"
      | _ => .error "Required"
  | _ => .error "Required"

/-- Embeds the completeTask/archiveTask input schema (index.test.ts lines
322-327 and 355-360): a positive integer task id. -/
def vTaskId (p : Params) : Except String Params :=
  match p.get? "taskId" with
  | some (.vNum n) =>
    if n = 0 then .error "Number must be greater than 0"
    else .ok [("taskId", .vNum n)]
  | _ => .error "Required"

/-- Embeds the six tool registrations of index.test.ts lines 125-382, in
registration order; each description is abbreviated to the first sentence of
the registered description string. -/
def todoServer : Server :=
  [ { name := "getLists", description := "Retrieve all todo lists with their details."
      inputSchema := some vEmptyObject, callback := getListsHandler },
    { name := "createList", description := "Create a new todo list to organize tasks."
      inputSchema := some vCreateList, callback := createListHandler },
    { name := "getTasks", description := "Retrieve tasks from a specific list."
      inputSchema := some vGetTasks, callback := getTasksHandler },
    { name := "createTask", description := "Create a new task in a specific list."
      inputSchema := some vCreateTask, callback := createTaskHandler },
    { name := "completeTask", description := "Mark a task as completed."
      inputSchema := some vTaskId, callback := completeTaskHandler },
    { name := "archiveTask", description := "Archive a task."
      inputSchema := some vTaskId, callback := archiveTaskHandler } ]

/-! ### Concrete fixtures used by witnesses and counterexamples -/

/-- An empty store. -/
def store0 : Store :=
  { lists := [], tasks := [], nextListId := 1, nextTaskId := 1, clock := 1000000 }

/-- A store holding a single list created as "Work". -/
def workList : ListRec :=
  { id := 1, name := "Work", description := none, createdAt := 0, archivedAt := none }

/-- Store fixture with only `workList`. -/
def workStore : Store :=
  { lists := [workList], tasks := [], nextListId := 2, nextTaskId := 1, clock := 1000 }

/-- A low-priority task created first. -/
def lowTask : Task :=
  { id := 1, name := "Low priority task!", description := none, createdAt := 1
    completedAt := none, archivedAt := none, priority := .low, listId := 1 }

/-- An urgent-priority task created second. -/
def urgentTask : Task :=
  { id := 2, name := "Urgent priority task", description := none, createdAt := 2
    completedAt := none, archivedAt := none, priority := .urgent, listId := 1 }

/-- A medium-priority task created third. -/
def mediumTask : Task :=
  { id := 3, name := "Medium priority task", description := none, createdAt := 3
    completedAt := none, archivedAt := none, priority := .medium, listId := 1 }

/-- Store fixture with one list and the three tasks above, created in the
order low, urgent, medium. -/
def exampleStore : Store :=
  { lists := [{ id := 1, name := "Task Test List", description := none
                createdAt := 0, archivedAt := none }]
    tasks := [lowTask, urgentTask, mediumTask]
    nextListId := 2, nextTaskId := 4, clock := 5000 }

/-! ### C9 — relative-time formatting -/

/-- Modelled from the spec's words: pick the coarsest applicable unit among
years (365 days), months (30-day approximation), days, hours, minutes and
seconds — each threshold computed directly in seconds — pluralize with a
trailing "s" for counts above one, and render sub-second deltas as
"just now". -/
def specRelativeTime (nowMs pastMs : Nat) : String :=
  let diffMs := nowMs - pastMs
  if diffMs < 1000 then "just now"
  else
    let s := diffMs / 1000
    if s / 31536000 > 0 then
      toString (s / 31536000) ++ " year" ++ (if s / 31536000 > 1 then "s" else "") ++ " ago"
    else if s / 2592000 > 0 then
      toString (s / 2592000) ++ " month" ++ (if s / 2592000 > 1 then "s" else "") ++ " ago"
    else if s / 86400 > 0 then
      toString (s / 86400) ++ " day" ++ (if s / 86400 > 1 then "s" else "") ++ " ago"
    else if s / 3600 > 0 then
      toString (s / 3600) ++ " hour" ++ (if s / 3600 > 1 then "s" else "") ++ " ago"
    else if s / 60 > 0 then
      toString (s / 60) ++ " minute" ++ (if s / 60 > 1 then "s" else "") ++ " ago"
    else
      toString s ++ " second" ++ (if s > 1 then "s" else "") ++ " ago"

/-- C9: for every past instant the relative-time formatter produces the
coarsest applicable unit in descending order years, months (30-day
approximation), days, hours, minutes, seconds, with correct pluralization,
and renders deltas under one second as "just now"; a timestamp 90 seconds
before now yields "1 minute ago", 3700 seconds before yields "1 hour ago",
and 0.5 seconds before yields "just now". -/
theorem c9_relative_time_format (now past : Nat) :
    formatRelativeTime now past = specRelativeTime now past
    ∧ formatRelativeTime 90000 0 = "1 minute ago"
    ∧ formatRelativeTime 3700000 0 = "1 hour ago"
    ∧ formatRelativeTime 500 0 = "just now" := by
  refine ⟨?_, rfl, rfl, rfl⟩
  unfold formatRelativeTime specRelativeTime
  simp only [Nat.div_div_eq_div_mul]

/-! ### C10 — task-count breakdown is a partition -/

/-- The three count filters of `getTaskCountsByList` split any task list. -/
theorem length_filter_counts (l : List Task) :
    (l.filter fun t => !t.completedAt.isSome && !t.archivedAt.isSome).length
      + (l.filter fun t => t.completedAt.isSome && !t.archivedAt.isSome).length
      + (l.filter fun t => t.archivedAt.isSome).length = l.length := by
  induction l with
  | nil => simp
  | cons t ts ih =>
    cases hc : t.completedAt <;> cases ha : t.archivedAt <;>
      simp [List.filter_cons, hc, ha] at ih ⊢ <;> omega

/-- C10: the task-count breakdown classifies each task into exactly one of
active/completed/archived — the archived bucket takes precedence over the
completed one — so active + completed + archived = total. -/
theorem c10_task_counts_partition (s : Store) (listId : Nat) :
    (getTaskCountsByList s listId).active + (getTaskCountsByList s listId).completed
        + (getTaskCountsByList s listId).archived = (getTaskCountsByList s listId).total
    ∧ ∀ t ∈ getTasksByList s listId,
        (!t.completedAt.isSome && !t.archivedAt.isSome).toNat
          + (t.completedAt.isSome && !t.archivedAt.isSome).toNat
          + (t.archivedAt.isSome).toNat = 1 := by
  constructor
  · simpa [getTaskCountsByList] using length_filter_counts (getTasksByList s listId)
  · intro t _
    cases hc : t.completedAt.isSome <;> cases ha : t.archivedAt.isSome <;> simp [hc, ha]

/-- Witness for C10 at a concrete store and task. -/
theorem c10_task_counts_partition_witness :
    (getTaskCountsByList exampleStore 1).active + (getTaskCountsByList exampleStore 1).completed
        + (getTaskCountsByList exampleStore 1).archived = (getTaskCountsByList exampleStore 1).total
    ∧ (!lowTask.completedAt.isSome && !lowTask.archivedAt.isSome).toNat
        + (lowTask.completedAt.isSome && !lowTask.archivedAt.isSome).toNat
        + (lowTask.archivedAt.isSome).toNat = 1 :=
  ⟨(c10_task_counts_partition exampleStore 1).1,
   (c10_task_counts_partition exampleStore 1).2 lowTask (by decide)⟩

/-! ### Substring containment for error-message claims -/

/-- String concatenation concatenates the underlying character lists. -/
theorem data_append (a b : String) : (a ++ b).data = a.data ++ b.data := rfl

/-- Substring containment: the characters of `sub` occur contiguously in `s`. -/
def strContains (sub s : String) : Prop := sub.data <:+: s.data

instance (sub s : String) : Decidable (strContains sub s) :=
  List.decidableInfix sub.data s.data

/-- Every member of a list of names occurs in their comma-joined rendering. -/
theorem mem_infix_joinComma (names : List String) (n : String) (hn : n ∈ names) :
    n.data <:+: (joinComma names).data := by
  induction names with
  | nil => cases hn
  | cons x xs ih =>
    cases xs with
    | nil =>
      rcases List.mem_cons.mp hn with rfl | h
      · exact List.infix_rfl
      · cases h
    | cons y ys =>
      rcases List.mem_cons.mp hn with rfl | h
      · exact ⟨[], (", " ++ joinComma (y :: ys)).data,
          by simp [joinComma, data_append, List.append_assoc]⟩
      · obtain ⟨s, t, hst⟩ := ih h
        exact ⟨(x ++ ", ").data ++ s, t,
          by simp [joinComma, data_append, List.append_assoc, hst]⟩

/-- The `ToolNotFound` message contains the requested name and every
registered name. -/
theorem strContains_toolNotFoundMsg (name : String) (names : List String) :
    strContains name (toolNotFoundMsg name names)
    ∧ ∀ n ∈ names, strContains n (toolNotFoundMsg name names) := by
  constructor
  · exact ⟨"Tool \"".data, ("\" not found. Available tools: " ++ joinComma names).data,
      by simp [toolNotFoundMsg, strContains, data_append, List.append_assoc]⟩
  · intro n hn
    obtain ⟨s, t, hst⟩ := mem_infix_joinComma names n hn
    exact ⟨("Tool \"" ++ name ++ "\" not found. Available tools: ").data ++ s, t,
      by simp [toolNotFoundMsg, strContains, data_append, List.append_assoc, hst]⟩

/-! ### C2 — unknown tool -/

/-- C2: calling an unregistered name fails with a `ToolNotFound`-style error
whose message names the requested tool and contains every currently
registered tool name, the store is left untouched and no handler runs. -/
theorem c2_tool_not_found (srv : Server) (name : String) (params : Params) (s : Store)
    (h : getTool srv name = none) :
    callTool srv name params s = (.error (toolNotFoundMsg name (getToolNames srv)), s)
    ∧ strContains name (toolNotFoundMsg name (getToolNames srv))
    ∧ ∀ n ∈ getToolNames srv, strContains n (toolNotFoundMsg name (getToolNames srv)) := by
  exact ⟨by simp [callTool, h], (strContains_toolNotFoundMsg name _).1,
    (strContains_toolNotFoundMsg name _).2⟩

/-- Witness for C2: `nonexistent` is not registered on the todo server, the
call fails with the full message, which contains the registered name
`getTasks`. -/
theorem c2_tool_not_found_witness :
    callTool todoServer "nonexistent" [] store0
      = (.error (toolNotFoundMsg "nonexistent" (getToolNames todoServer)), store0)
    ∧ strContains "getTasks" (toolNotFoundMsg "nonexistent" (getToolNames todoServer)) :=
  ⟨(c2_tool_not_found todoServer "nonexistent" [] store0 rfl).1,
    (c2_tool_not_found todoServer "nonexistent" [] store0 rfl).2.2 "getTasks" (by decide)⟩

/-! ### C3 — invalid parameters -/

/-- C3: when a registered tool declares an input schema and the parameters
fail validation, the call fails with an `InvalidParameters`-style error whose
message carries the tool name and the validation diagnostic, the store is
left untouched and the handler never runs. -/
theorem c3_invalid_params (srv : Server) (name : String) (params : Params) (s : Store)
    (tool : Tool) (v : Params → Except String Params) (d : String)
    (h1 : getTool srv name = some tool) (h2 : tool.inputSchema = some v)
    (h3 : v params = .error d) :
    callTool srv name params s = (.error (invalidParamsMsg name d), s)
    ∧ strContains name (invalidParamsMsg name d)
    ∧ strContains d (invalidParamsMsg name d) := by
  refine ⟨by simp [callTool, h1, h2, h3], ?_, ?_⟩
  · exact ⟨"Invalid parameters for tool \"".data, ("\": " ++ d).data,
      by simp [invalidParamsMsg, strContains, data_append, List.append_assoc]⟩
  · exact ⟨("Invalid parameters for tool \"" ++ name ++ "\": ").data, [],
      by simp [invalidParamsMsg, strContains, data_append, List.append_assoc]⟩

/-- Witness for C3: `createTask` declares a schema requiring `list`; calling
it with no parameters fails validation and the handler never runs (the store
is returned unchanged). -/
theorem c3_invalid_params_witness :
    callTool todoServer "createTask" [] store0
      = (.error (invalidParamsMsg "createTask" "Required"), store0) :=
  (c3_invalid_params todoServer "createTask" [] store0
      { name := "createTask", description := "Create a new task in a specific list."
        inputSchema := some vCreateTask, callback := createTaskHandler }
      vCreateTask "Required" rfl rfl rfl).1

/-! ### C1 — batch invocation -/

/-- Batch invocation yields one result per entry, tagged with that entry's
tool name, in submission order. -/
theorem callTools_map_tool (srv : Server) (calls : List BatchCall) (s : Store) :
    (callTools srv calls s).1.map BatchResult.tool = calls.map BatchCall.tool := by
  induction calls generalizing s with
  | nil => rfl
  | cons c rest ih =>
    unfold callTools
    rcases hc : callTool srv c.tool c.parameters s with ⟨r, s1⟩
    cases r <;> simp [ih s1]

/-- Batch invocation is sequential: a batch splits into the results of its
prefix followed by the results of its suffix started from the state the
prefix left behind — in particular a failure inside the prefix never aborts
the suffix. -/
theorem callTools_append (srv : Server) (calls1 calls2 : List BatchCall) (s : Store) :
    callTools srv (calls1 ++ calls2) s
      = ((callTools srv calls1 s).1 ++ (callTools srv calls2 (callTools srv calls1 s).2).1,
          (callTools srv calls2 (callTools srv calls1 s).2).2) := by
  induction calls1 generalizing s with
  | nil => simp [callTools]
  | cons c rest ih =>
    simp only [List.cons_append, callTools]
    rcases hc : callTool srv c.tool c.parameters s with ⟨r, s1⟩
    cases r <;> simp [hc, ih s1]

/-- A single-entry batch reports either the call's result with a success tag
or the stringified error with a failure tag, never throwing. -/
theorem callTools_singleton (srv : Server) (c : BatchCall) (s : Store) :
    callTools srv [c] s
      = (match callTool srv c.tool c.parameters s with
          | (.ok r, s1) =>
            ([{ tool := c.tool, result := some r, success := true, error := none }], s1)
          | (.error e, s1) =>
            ([{ tool := c.tool, result := none, success := false, error := some e }], s1)) := by
  unfold callTools
  rcases hc : callTool srv c.tool c.parameters s with ⟨r, s1⟩
  cases r <;> simp [callTools]

/-- The three-call batch of the isolation property: the middle call targets a
nonexistent list. -/
def batchIsolationCalls : List BatchCall :=
  [ { tool := "createList", parameters := [("name", .vStr "Success List")] },
    { tool := "createTask"
      parameters := [("list", .vStr "Non-existent List"), ("name", .vStr "This will fail")] },
    { tool := "getTasks", parameters := [("list", .vStr "Success List")] } ]

/-- C1: `callTools` invokes the calls sequentially in array order and returns
exactly one result record per input entry in the same order; a failing entry
is caught and recorded (success=false with the stringified error message) and
never prevents the remaining entries from running or succeeding — on the
concrete three-call batch whose middle entry targets a nonexistent list,
entry 0 succeeds, entry 1 fails with a ListNotFound-style message, and entry
2 still succeeds. -/
theorem c1_batch_sequential_isolated (srv : Server) (calls : List BatchCall) (s : Store) :
    ((callTools srv calls s).1.map BatchResult.tool = calls.map BatchCall.tool)
    ∧ (∀ calls2, callTools srv (calls ++ calls2) s
        = ((callTools srv calls s).1 ++ (callTools srv calls2 (callTools srv calls s).2).1,
            (callTools srv calls2 (callTools srv calls s).2).2))
    ∧ (∀ c, callTools srv [c] s
        = (match callTool srv c.tool c.parameters s with
            | (.ok r, s1) =>
              ([{ tool := c.tool, result := some r, success := true, error := none }], s1)
            | (.error e, s1) =>
              ([{ tool := c.tool, result := none, success := false, error := some e }], s1)))
    ∧ (callTools todoServer batchIsolationCalls store0).1
        = [ { tool := "createList", result := some "✅ Created list: Success List (ID: 1)"
              success := true, error := none },
            { tool := "createTask", result := none, success := false
              error := some ("Tool \"createTask\" execution failed: " ++
                "List \"Non-existent List\" not found. Available lists: Success List") },
            { tool := "getTasks", result := some "list: Success List, tasks: 0"
              success := true, error := none } ] :=
  ⟨callTools_map_tool srv calls s,
    fun calls2 => callTools_append srv calls calls2 s,
    fun c => callTools_singleton srv c s,
    by decide⟩

/-! ### C4 — what reaches the handler -/

/-- A callback that reports whether a `priority` parameter reached it; it
observes exactly which parameter value the engine hands to a handler. -/
def probeCallback (p : Params) (_e : Extra) (s : Store) :
    Except String String × Store :=
  (.ok (if (p.get? "priority").isSome then "priority-present" else "priority-missing"), s)

/-- A one-tool server whose input schema is the createTask schema (whose
validated output defaults `priority` to medium). -/
def probeServer : Server :=
  [ { name := "probe", description := "Reports whether a priority parameter arrived"
      inputSchema := some vCreateTask, callback := probeCallback } ]

/-- Parameters that pass the createTask schema while omitting `priority`. -/
def probeParams : Params := [("list", .vStr "Work"), ("name", .vStr "Valid task")]

/-- C4 counterexample: on parameters omitting `priority`, the createTask
schema's validated output contains `priority = "medium"`, yet the handler
invoked through `callTool` observes that no `priority` arrived — the engine
passes the raw parameters and discards the validated value, so an omitted
priority does not reach the handler as "medium". -/
theorem c4_defaults_not_applied_counterexample :
    vCreateTask probeParams
      = .ok [("list", .vStr "Work"), ("name", .vStr "Valid task"), ("priority", .vStr "medium")]
    ∧ callTool probeServer "probe" probeParams store0 = (.ok "priority-missing", store0)
    ∧ probeCallback
        [("list", .vStr "Work"), ("name", .vStr "Valid task"), ("priority", .vStr "medium")]
        (mkExtra store0) store0 = (.ok "priority-present", store0) :=
  ⟨rfl, rfl, rfl⟩

/-- C4 (amended): for every call whose parameters pass input-schema
validation, the engine invokes the handler with the ORIGINAL raw parameters —
the validator's output, including applied schema defaults, is discarded —
together with a per-call context carrying a call identifier and a
cancellation signal; a handler failure is wrapped with the tool name, never
swallowed. -/
theorem c4_raw_params_passed_to_handler (srv : Server) (name : String) (params : Params)
    (s : Store) (tool : Tool) (v : Params → Except String Params) (q : Params)
    (h1 : getTool srv name = some tool) (h2 : tool.inputSchema = some v)
    (h3 : v params = .ok q) :
    callTool srv name params s
      = (match tool.callback params (mkExtra s) s with
          | (.ok r, s1) => (.ok r, s1)
          | (.error e, s1) => (.error (execFailedMsg name e), s1)) := by
  simp [callTool, h1, h2, h3, runCallback]

/-- Witness for the amended C4 at the probe tool. -/
theorem c4_raw_params_passed_to_handler_witness :
    callTool probeServer "probe" probeParams store0
      = (match probeCallback probeParams (mkExtra store0) store0 with
          | (.ok r, s1) => (.ok r, s1)
          | (.error e, s1) => (.error (execFailedMsg "probe" e), s1)) :=
  c4_raw_params_passed_to_handler probeServer "probe" probeParams store0
    { name := "probe", description := "Reports whether a priority parameter arrived"
      inputSchema := some vCreateTask, callback := probeCallback }
    vCreateTask [("list", .vStr "Work"), ("name", .vStr "Valid task"), ("priority", .vStr "medium")]
    rfl rfl rfl

/-! ### C5 — getTasks sort order -/

/-- C5: every successful `getTasks` result is sorted by priority rank
ascending (urgent=0, high=1, medium=2, low=3) with creation time ascending as
the tie-break, and is a permutation of the (possibly completed/archived-
filtered) tasks of the resolved list; concretely, tasks created in the order
low, urgent, medium come back as urgent, medium, low. -/
theorem c5_getTasks_sorted (s : Store) (q : String) (inc : Bool) (ts : List Task)
    (h : getTasksCore s q inc = .ok ts) :
    ts.Sorted taskLE
    ∧ (∃ l, resolveList s q = some l ∧
        ts.Perm (if inc then getTasksByList s l.id
          else (getTasksByList s l.id).filter fun t =>
            !t.completedAt.isSome && !t.archivedAt.isSome))
    ∧ getTasksCore exampleStore "Task Test List" false
        = .ok [urgentTask, mediumTask, lowTask] := by
  refine ⟨?_, ?_, rfl⟩ <;>
  · unfold getTasksCore at h
    cases hr : resolveList s q with
    | none => rw [hr] at h; cases h
    | some l =>
      rw [hr] at h
      simp only [Except.ok.injEq] at h
      subst h
      first
      | exact List.sorted_insertionSort taskLE _
      | exact ⟨l, rfl, List.perm_insertionSort taskLE _⟩

/-- Witness for C5 at the concrete three-task store. -/
theorem c5_getTasks_sorted_witness :
    ([urgentTask, mediumTask, lowTask] : List Task).Sorted taskLE :=
  (c5_getTasks_sorted exampleStore "Task Test List" false
    [urgentTask, mediumTask, lowTask] rfl).1

/-! ### C6 — complete/archive guards -/

/-- Updating the task with a given id rewrites exactly the found task in a
`find?` by that id, provided the update preserves the id. -/
theorem find?_map_update (l : List Task) (id : Nat) (g : Task → Task)
    (hg : ∀ x, (g x).id = x.id) (t : Task)
    (h : l.find? (fun x => x.id = id) = some t) :
    (l.map fun x => if x.id = id then g x else x).find? (fun x => x.id = id)
      = some (g t) := by
  induction l with
  | nil => simp at h
  | cons a l ih =>
    by_cases ha : a.id = id
    · rw [List.find?_cons_of_pos _ (by simp [ha])] at h
      obtain rfl : a = t := by simpa using h
      simp only [List.map_cons, if_pos ha]
      exact List.find?_cons_of_pos _ (by simp [hg, ha])
    · rw [List.find?_cons_of_neg _ (by simp [ha])] at h
      simp only [List.map_cons, if_neg ha]
      rw [List.find?_cons_of_neg _ (by simp [ha])]
      exact ih h

/-- C6: completing a task fails TaskNotFound-style when the id is unknown
(and so does archiving); completing a not-yet-completed task sets its
completion timestamp to now, after which completing it again fails
AlreadyCompleted-style (the message quotes the task name, per index.test.ts
line 336) leaving both the store and the first completion timestamp
unchanged; completing an already-completed task fails and changes nothing;
archiveTask behaves symmetrically on the archive timestamp (line 369). -/
theorem c6_complete_archive_guards (s : Store) (e : Extra) (id : Nat) :
    (getTask s id = none →
        completeTaskHandler [("taskId", .vNum id)] e s = (.error (taskNotFoundMsg id), s)
        ∧ archiveTaskHandler [("taskId", .vNum id)] e s = (.error (taskNotFoundMsg id), s))
    ∧ (∀ t, getTask s id = some t → t.completedAt = none →
        completeTaskHandler [("taskId", .vNum id)] e s
          = (.ok ("✅ Completed task: " ++ t.name ++ " (ID: " ++ toString id ++ ")"),
              dbCompleteTask s id s.clock)
        ∧ getTask (dbCompleteTask s id s.clock) id = some { t with completedAt := some s.clock }
        ∧ completeTaskHandler [("taskId", .vNum id)] e (dbCompleteTask s id s.clock)
            = (.error (alreadyCompletedMsg t.name), dbCompleteTask s id s.clock))
    ∧ (∀ t, getTask s id = some t → t.completedAt.isSome →
        completeTaskHandler [("taskId", .vNum id)] e s = (.error (alreadyCompletedMsg t.name), s))
    ∧ (∀ t, getTask s id = some t → t.archivedAt = none →
        archiveTaskHandler [("taskId", .vNum id)] e s
          = (.ok ("🗄️ Archived task: " ++ t.name ++ " (ID: " ++ toString id ++ ")"),
              dbArchiveTask s id s.clock)
        ∧ getTask (dbArchiveTask s id s.clock) id = some { t with archivedAt := some s.clock }
        ∧ archiveTaskHandler [("taskId", .vNum id)] e (dbArchiveTask s id s.clock)
            = (.error (alreadyArchivedMsg t.name), dbArchiveTask s id s.clock))
    ∧ (∀ t, getTask s id = some t → t.archivedAt.isSome →
        archiveTaskHandler [("taskId", .vNum id)] e s = (.error (alreadyArchivedMsg t.name), s)) := by
  have hid : natParam [("taskId", .vNum id)] "taskId" = id := by
    simp [natParam, Params.get?]
  refine ⟨fun hn => ?_, fun t ht hc => ?_, fun t ht hc => ?_, fun t ht hc => ?_,
    fun t ht hc => ?_⟩
  · constructor <;> simp [completeTaskHandler, archiveTaskHandler, hid, hn]
  · have ht' : s.tasks.find? (fun x => x.id = id) = some t := ht
    have hup : getTask (dbCompleteTask s id s.clock) id
        = some { t with completedAt := some s.clock } := by
      have hfind := find?_map_update s.tasks id
        (fun x => { x with completedAt := some s.clock }) (fun x => rfl) t ht'
      simpa [getTask, dbCompleteTask] using hfind
    refine ⟨by simp [completeTaskHandler, hid, ht, hc], hup, ?_⟩
    simp [completeTaskHandler, hid, hup]
  · simp [completeTaskHandler, hid, ht, hc]
  · have ht' : s.tasks.find? (fun x => x.id = id) = some t := ht
    have hup : getTask (dbArchiveTask s id s.clock) id
        = some { t with archivedAt := some s.clock } := by
      have hfind := find?_map_update s.tasks id
        (fun x => { x with archivedAt := some s.clock }) (fun x => rfl) t ht'
      simpa [getTask, dbArchiveTask] using hfind
    refine ⟨by simp [archiveTaskHandler, hid, ht, hc], hup, ?_⟩
    simp [archiveTaskHandler, hid, hup]
  · simp [archiveTaskHandler, hid, ht, hc]

/-- A fresh task used by the C6 witness. -/
def freshTask : Task :=
  { id := 1, name := "Task to complete or archive", description := none, createdAt := 500
    completedAt := none, archivedAt := none, priority := .medium, listId := 1 }

/-- Store fixture holding `freshTask`. -/
def guardStore : Store :=
  { lists := [{ id := 1, name := "Completion Test List", description := none
                createdAt := 0, archivedAt := none }]
    tasks := [freshTask], nextListId := 2, nextTaskId := 2, clock := 2000 }

/-- A fixed per-call context for witnesses. -/
def extra0 : Extra := { requestId := "test-0", signal := () }

/-- Witness for C6: id 99999 is unknown; completing task 1 succeeds and sets
its completion timestamp; completing it again fails AlreadyCompleted with the
store (hence the first timestamp) unchanged. -/
theorem c6_complete_archive_guards_witness :
    completeTaskHandler [("taskId", .vNum 99999)] extra0 guardStore
      = (.error (taskNotFoundMsg 99999), guardStore)
    ∧ completeTaskHandler [("taskId", .vNum 1)] extra0 guardStore
      = (.ok ("✅ Completed task: " ++ freshTask.name ++ " (ID: " ++ toString 1 ++ ")"),
          dbCompleteTask guardStore 1 guardStore.clock)
    ∧ getTask (dbCompleteTask guardStore 1 guardStore.clock) 1
      = some { freshTask with completedAt := some guardStore.clock }
    ∧ completeTaskHandler [("taskId", .vNum 1)] extra0 (dbCompleteTask guardStore 1 guardStore.clock)
      = (.error (alreadyCompletedMsg freshTask.name), dbCompleteTask guardStore 1 guardStore.clock) :=
  ⟨((c6_complete_archive_guards guardStore extra0 99999).1 rfl).1,
    ((c6_complete_archive_guards guardStore extra0 1).2.1 freshTask rfl rfl).1,
    ((c6_complete_archive_guards guardStore extra0 1).2.1 freshTask rfl rfl).2.1,
    ((c6_complete_archive_guards guardStore extra0 1).2.1 freshTask rfl rfl).2.2⟩

/-! ### C7 — case-insensitive list resolution -/

/-- The `ListNotFound` message contains the queried name and every known
list name. -/
theorem strContains_listNotFoundMsg (q : String) (names : List String) :
    strContains q (listNotFoundMsg q names)
    ∧ ∀ n ∈ names, strContains n (listNotFoundMsg q names) := by
  constructor
  · exact ⟨"List \"".data, ("\" not found. Available lists: " ++ joinComma names).data,
      by simp [listNotFoundMsg, strContains, data_append, List.append_assoc]⟩
  · intro n hn
    obtain ⟨s, t, hst⟩ := mem_infix_joinComma names n hn
    exact ⟨("List \"" ++ q ++ "\" not found. Available lists: ").data ++ s, t,
      by simp [listNotFoundMsg, strContains, data_append, List.append_assoc, hst]⟩

/-- The archived "Work" list of the C7 counterexample. -/
def archivedWork : ListRec :=
  { id := 1, name := "Work", description := none, createdAt := 0, archivedAt := some 7 }

/-- Store fixture whose only list is the archived "Work". -/
def archivedWorkStore : Store :=
  { lists := [archivedWork], tasks := [], nextListId := 2, nextTaskId := 1, clock := 1000 }

/-- C7 counterexample: "WORK" equals the stored list name "Work" up to
letter case, yet neither getTasks nor createTask resolves it — the shared
resolver reads only the non-archived lists — and the ListNotFound message
does not contain the stored name "Work", so it does not enumerate all known
list names. -/
theorem c7_archived_list_counterexample :
    archivedWork ∈ archivedWorkStore.lists
    ∧ strToLower "WORK" = strToLower archivedWork.name
    ∧ getTasksCore archivedWorkStore "WORK" false
        = .error (listNotFoundMsg "WORK" (availableListNames archivedWorkStore))
    ∧ (createTaskHandler [("list", .vStr "WORK"), ("name", .vStr "Valid task")] extra0
        archivedWorkStore).1
        = .error (listNotFoundMsg "WORK" (availableListNames archivedWorkStore))
    ∧ ¬ strContains archivedWork.name
        (listNotFoundMsg "WORK" (availableListNames archivedWorkStore)) :=
  ⟨by decide, rfl, rfl, rfl, by decide⟩

/-- C7 (amended): queries equal up to letter case resolve identically through
the one resolver shared by getTasks and createTask; a query matching an
ACTIVE (non-archived) stored list up to case always resolves, and both
operations act on exactly the resolved list (so "work", "WORK" and "WoRk" all
reach the list created as "Work"); when no active list matches, both
operations fail with the same ListNotFound message, whose text enumerates the
names of all active lists — archived lists are neither resolvable nor
enumerated. -/
theorem c7_case_insensitive_lists (s : Store) (q1 q2 : String) :
    (strToLower q1 = strToLower q2 → resolveList s q1 = resolveList s q2)
    ∧ (∀ l ∈ getAllLists s, strToLower q1 = strToLower l.name → (resolveList s q1).isSome)
    ∧ (∀ l, resolveList s q1 = some l →
        (∀ inc, getTasksCore s q1 inc
            = .ok (sortTasks (if inc then getTasksByList s l.id
                else (getTasksByList s l.id).filter fun t =>
                  !t.completedAt.isSome && !t.archivedAt.isSome)))
        ∧ (∀ p e, strParam p "list" = q1 →
            ((createTaskHandler p e s).2).tasks
              = s.tasks ++ [{ id := s.nextTaskId, name := strParam p "name",
                              description := strParamOpt p "description",
                              createdAt := s.clock,
                              completedAt := none, archivedAt := none,
                              priority := ((strParamOpt p "priority").bind
                                Priority.ofString?).getD .medium,
                              listId := l.id }]))
    ∧ (resolveList s q1 = none →
        getTasksCore s q1 false = .error (listNotFoundMsg q1 (availableListNames s))
        ∧ (∀ p e, strParam p "list" = q1 →
            createTaskHandler p e s
              = (.error (listNotFoundMsg q1 (availableListNames s)), s))
        ∧ strContains q1 (listNotFoundMsg q1 (availableListNames s))
        ∧ ∀ n ∈ availableListNames s,
            strContains n (listNotFoundMsg q1 (availableListNames s)))
    ∧ (resolveList workStore "work" = some workList
        ∧ resolveList workStore "WORK" = some workList
        ∧ resolveList workStore "WoRk" = some workList) := by
  refine ⟨fun h => by simp [resolveList, h], fun l hl hq => ?_,
    fun l hl => ⟨fun inc => ?_, fun p e hp => ?_⟩,
    fun hn => ⟨by simp [getTasksCore, hn], fun p e hp => ?_,
      (strContains_listNotFoundMsg q1 _).1,
      (strContains_listNotFoundMsg q1 _).2⟩, rfl, rfl, rfl⟩
  · rcases hfind : resolveList s q1 with _ | l'
    · exfalso
      have hfind' : (getAllLists s).find?
          (fun x => strToLower x.name = strToLower q1) = none := hfind
      have hnot := List.find?_eq_none.mp hfind' l hl
      exact hnot (by simp [hq])
    · simp
  · simp [getTasksCore, hl]
  · simp [createTaskHandler, hp, hl, dbCreateTask]
  · simp [createTaskHandler, hp, hn]

/-- Witness for the amended C7: "WoRk" and "work" resolve alike; querying
"Nope" makes both getTasks and createTask fail with the message that contains
the known name "Work". -/
theorem c7_case_insensitive_lists_witness :
    resolveList workStore "WoRk" = resolveList workStore "work"
    ∧ getTasksCore workStore "Nope" false
        = .error (listNotFoundMsg "Nope" (availableListNames workStore))
    ∧ createTaskHandler [("list", .vStr "Nope")] extra0 workStore
        = (.error (listNotFoundMsg "Nope" (availableListNames workStore)), workStore)
    ∧ strContains "Work" (listNotFoundMsg "Nope" (availableListNames workStore)) :=
  ⟨(c7_case_insensitive_lists workStore "WoRk" "work").1 rfl,
    ((c7_case_insensitive_lists workStore "Nope" "x").2.2.2.1 rfl).1,
    ((c7_case_insensitive_lists workStore "Nope" "x").2.2.2.1 rfl).2.1
      [("list", .vStr "Nope")] extra0 rfl,
    ((c7_case_insensitive_lists workStore "Nope" "x").2.2.2.1 rfl).2.2.2 "Work" (by decide)⟩

/-! ### C8 — what getLists returns -/

/-- An active list used by the C8 counterexample. -/
def activeListC8 : ListRec :=
  { id := 1, name := "Active", description := none, createdAt := 0, archivedAt := none }

/-- An archived list used by the C8 counterexample. -/
def archivedListC8 : ListRec :=
  { id := 2, name := "Old", description := none, createdAt := 0, archivedAt := some 5 }

/-- Store fixture holding one active and one archived list. -/
def sC8 : Store :=
  { lists := [activeListC8, archivedListC8], tasks := []
    nextListId := 3, nextTaskId := 1, clock := 1000 }

/-- C8 counterexample: the store holds lists 1 (active) and 2 (archived), yet
`getLists` returns only list 1 — the store query filters by archive status,
refuting "returns every list, both active and archived, with no filtering". -/
theorem c8_returns_archived_counterexample :
    sC8.lists.map ListRec.id = [1, 2]
    ∧ archivedListC8 ∈ sC8.lists
    ∧ archivedListC8.archivedAt = some 5
    ∧ (getListsCore sC8).map (fun e => e.list.id) = [1] :=
  ⟨rfl, by decide, rfl, rfl⟩

/-- C8 (amended): `getLists` returns exactly the ACTIVE (non-archived) lists
— the store query `getAllLists` filters out lists whose archive timestamp is
set — and augments each returned list with the task-count breakdown computed
by scanning that list's tasks and a relative-time rendering of its creation
timestamp by the module's inline formatter. -/
theorem c8_getLists_active_only (s : Store) :
    (getListsCore s).map ListWithMeta.list = s.lists.filter (fun l => l.archivedAt = none)
    ∧ ∀ e ∈ getListsCore s,
        e.taskCounts = getTaskCountsByList s e.list.id
        ∧ e.createdAtRelative = formatRelativeTimeInline s.clock e.list.createdAt := by
  constructor
  · simp only [getListsCore, getAllLists, List.map_map]
    exact List.map_id _ ▸ rfl
  · intro e he
    simp only [getListsCore, List.mem_map] at he
    obtain ⟨l, _, rfl⟩ := he
    exact ⟨rfl, rfl⟩

/-- Witness for the amended C8 at the two-list store. -/
theorem c8_getLists_active_only_witness :
    (getListsCore sC8).map ListWithMeta.list = sC8.lists.filter (fun l => l.archivedAt = none)
    ∧ ({ list := activeListC8, taskCounts := getTaskCountsByList sC8 activeListC8.id
         createdAtRelative := formatRelativeTimeInline sC8.clock activeListC8.createdAt } :
        ListWithMeta).taskCounts
      = getTaskCountsByList sC8 activeListC8.id :=
  ⟨(c8_getLists_active_only sC8).1,
    ((c8_getLists_active_only sC8).2 _ (by decide)).1⟩

end TodoMcp
